import Mathlib

/-!
# Verification of the real-estate chaincode (`src/chaincode.go`)

Shallow embedding of the transaction logic of the Hyperledger Fabric
chaincode in `src/chaincode.go`.  The ledger collaborator (the stub's
`GetState`/`PutState`) is modelled as an association list from string keys
to stored documents; `json.Marshal` of the three record structs is
deterministic and injective on the fields, so document equality in the
model coincides with byte-for-byte equality of the stored JSON.  Platform
storage errors (`GetState`/`PutState` returning a non-nil `err`) are out
of scope: the model's ledger primitives always succeed, as the spec keeps
`StorageError` at the collaborator level.

Source slips faithfully noted rather than repaired silently:
* the Go struct fields `Property_num`, `Condition_num`, `Contract_num`
  are declared `int`, but every value the code actually stores in them is
  a lower-cased string argument (`&property{objectType, propertyNum, ...}`
  with `propertyNum := strings.ToLower(args[0])`), so the embedding gives
  them the type of the value that flows in: `String`;
* `initConditon` (the source spells it without the second `i`) and
  `CreateContract` drop a closing brace after `return shim.Error(err.Error())`
  following `json.Marshal`; the evident intent (the pattern of every other
  function in the file) closes that brace, and `json.Marshal` of these
  structs cannot fail, so the branch is dead in the model either way;
* `transferProperty` unmarshals into `marble{}`, a type the file does not
  define; the evident intent is `property{}` and the embedding uses it;
* `readValue` interpolates an undefined identifier `name` into its error
  strings; the evident intent is the local `key`.

Strings: Go's `strings.ToLower` is modelled by `toLowerStr`
(they agree on ASCII, which covers all identifiers in the claims), and
Go's `len(s)` on a string by `String.length` (both are zero exactly on
the empty string, which is all the code's `<= 0` checks use).
-/

/-- 매물 — the Property record (`type property struct` in the source).
`ObjectType` carries the `docType` JSON tag. -/
structure property where
  ObjectType : String
  Property_num : String
  Name : String
  Address : String
  Owner : String
deriving DecidableEq, Repr

/-- 계약 조건 — the Condition record (`type conditionOfContract struct`). -/
structure conditionOfContract where
  ObjectType : String
  Condition_num : String
  Property_num : String
  Seller : String
  Buyer : String
  Deposit : Int
deriving DecidableEq, Repr

/-- 계약서 — the Contract record (`type contract struct`). -/
structure contract where
  ObjectType : String
  Contract_num : String
  Condition_num : String
deriving DecidableEq, Repr

/-- A stored document: the three record kinds share one key space and are
distinguished by their `docType` field; `Doc` is the decoded form of the
JSON bytes placed under a ledger key. -/
inductive Doc where
  | prop (p : property)
  | cond (c : conditionOfContract)
  | contr (c : contract)
deriving DecidableEq, Repr

/-- The state database as seen through the stub: a finite map from string
keys to stored documents, as an association list without duplicate keys
along the operations used here. -/
abbrev Ledger := List (String × Doc)

/-- `stub.GetState key`: first binding of the key, `none` when absent
(Fabric returns nil bytes for an absent key). -/
def getState (l : Ledger) (k : String) : Option Doc :=
  match l with
  | [] => none
  | (k2, v) :: rest => if k2 = k then some v else getState rest k

/-- `stub.PutState key value`: overwrite the binding of the key, or append
a fresh one. -/
def putState (l : Ledger) (k : String) (v : Doc) : Ledger :=
  match l with
  | [] => [(k, v)]
  | (k2, v2) :: rest => if k2 = k then (k, v) :: rest else (k2, v2) :: putState rest k v

/-- `pb.Response`: `shim.Success` with an optional payload (the raw bytes
of a stored document, decoded in the model), or `shim.Error` with a
human-readable message. -/
inductive Response where
  | success (payload : Option Doc)
  | error (msg : String)
deriving DecidableEq, Repr

/-- `strconv.Atoi`: an optional sign followed by at least one decimal
digit, nothing else; the numeric value on success. -/
def atoi? (s : String) : Option Int :=
  let digitsVal (cs : List Char) : Int :=
    cs.foldl (fun acc c => acc * 10 + (c.toNat - '0'.toNat)) 0
  match s.data with
  | [] => none
  | '+' :: rest =>
      if rest ≠ [] ∧ rest.all Char.isDigit then some (digitsVal rest) else none
  | '-' :: rest =>
      if rest ≠ [] ∧ rest.all Char.isDigit then some (-(digitsVal rest)) else none
  | cs =>
      if cs.all Char.isDigit then some (digitsVal cs) else none

/-- Go's `strings.ToLower` on one character, restricted to ASCII (all
identifiers in the claims and scenarios are ASCII; Go additionally maps
non-ASCII letters, which no claim exercises). -/
def lowerChar (c : Char) : Char :=
  if c.toNat ≥ 65 ∧ c.toNat ≤ 90 then Char.ofNat (c.toNat + 32) else c

/-- Go's `strings.ToLower` on a string. -/
def toLowerStr (s : String) : String := ⟨s.data.map lowerChar⟩

/-- `initProperty(stub, args)`: expects exactly 4 args
(propertyNum, propertyName, address, owner), all non-empty; lower-cases
all four, marshals a `property` document with `docType = "property"` and
stores it under the lower-cased propertyNum.  No existence check precedes
the `PutState`. -/
def initProperty (l : Ledger) (args : List String) : Response × Ledger :=
  match args with
  | [a0, a1, a2, a3] =>
    if a0.length ≤ 0 then (.error "1st argument must be a non-empty string", l)
    else if a1.length ≤ 0 then (.error "2nd argument must be a non-empty string", l)
    else if a2.length ≤ 0 then (.error "3rd argument must be a non-empty string", l)
    else if a3.length ≤ 0 then (.error "4th argument must be a non-empty string", l)
    else
      let propertyNum := (toLowerStr a0)
      let propertyName := (toLowerStr a1)
      let address := (toLowerStr a2)
      let owner := (toLowerStr a3)
      let doc : property := ⟨"property", propertyNum, propertyName, address, owner⟩
      (.success none, putState l propertyNum (.prop doc))
  | _ => (.error "Incorrect number of arguments. Expecting 4", l)

/-- `initConditon(stub, args)` (source spelling): expects exactly 5 args
(conditionNum, propertyNum, seller, buyer, deposit), all non-empty; the
first four are lower-cased, the fifth must parse with `strconv.Atoi`
(sign allowed, so negative deposits are accepted); stores a condition
document with `docType = "condition"` under the lower-cased conditionNum.
No existence check, and no check that the referenced propertyNum exists. -/
def initConditon (l : Ledger) (args : List String) : Response × Ledger :=
  match args with
  | [a0, a1, a2, a3, a4] =>
    if a0.length ≤ 0 then (.error "1st argument must be a non-empty string", l)
    else if a1.length ≤ 0 then (.error "2nd argument must be a non-empty string", l)
    else if a2.length ≤ 0 then (.error "3rd argument must be a non-empty string", l)
    else if a3.length ≤ 0 then (.error "4th argument must be a non-empty string", l)
    else if a4.length ≤ 0 then (.error "5th argument must be a non-empty string", l)
    else
      match atoi? a4 with
      | none => (.error "5th argument must be a numeric string", l)
      | some deposit =>
        let conditionNum := (toLowerStr a0)
        let propertyNum := (toLowerStr a1)
        let seller := (toLowerStr a2)
        let buyer := (toLowerStr a3)
        let doc : conditionOfContract :=
          ⟨"condition", conditionNum, propertyNum, seller, buyer, deposit⟩
        (.success none, putState l conditionNum (.cond doc))
  | _ => (.error "Incorrect number of arguments. Expecting 5", l)

/-- `CreateContract(stub, args)` (source spelling, capital C): expects
exactly 2 non-empty args (contractNum, conditionNum), lower-cases both and
stores a document under the lower-cased contractNum with no existence
check.  The source body is a copy-paste slip — it builds
`&conditionOfContract{objectType, conditionNum, propertyNum, seller,
buyer, deposit}` where `conditionNum`, `seller`, `buyer`, `deposit` are
undefined identifiers — so the stored document is modelled from the spec:
a Contract record `{docType = "contract", contract_num, condition_num}`
built from the two lower-cased arguments.  Arity check, emptiness checks,
lower-casing and the storage key are from the source. -/
def CreateContract (l : Ledger) (args : List String) : Response × Ledger :=
  match args with
  | [a0, a1] =>
    if a0.length ≤ 0 then (.error "1st argument must be a non-empty string", l)
    else if a1.length ≤ 0 then (.error "2nd argument must be a non-empty string", l)
    else
      let contractNum := (toLowerStr a0)
      let conditionNum := (toLowerStr a1)
      let doc : contract := ⟨"contract", contractNum, conditionNum⟩
      (.success none, putState l contractNum (.contr doc))
  | _ => (.error "Incorrect number of arguments. Expecting 2", l)

/-- `readValue(stub, args)`: expects exactly 1 arg, used VERBATIM as the
key (no lower-casing); returns the raw stored bytes on success, an error
naming the key when absent. -/
def readValue (l : Ledger) (args : List String) : Response × Ledger :=
  match args with
  | [a0] =>
    match getState l a0 with
    | none => (.error ("\x7b\"Error\":\"Value does not exist: " ++ a0 ++ "\"\x7d"), l)
    | some v => (.success (some v), l)
  | _ => (.error "Incorrect number of arguments. Expecting number of the value to query", l)

/-- `json.Unmarshal` of stored bytes into a `property` struct: fields are
matched by JSON tag (`docType`, `property_num`, `name`, `address`,
`owner`); tags absent from the stored document leave the Go zero value. -/
def unmarshalProperty : Doc → property
  | .prop p => p
  | .cond c => ⟨c.ObjectType, c.Property_num, "", "", ""⟩
  | .contr c => ⟨c.ObjectType, "", "", "", ""⟩

/-- `transferProperty(stub, args)`: requires AT LEAST 2 args
(`len(args) < 2` in the source — not an exact-arity check; extra
arguments are ignored).  The key `args[0]` is used VERBATIM (no
lower-casing); only `newOwner = args[1]` is lower-cased, with no
non-emptiness check.  Fetches the record (error "Property does not exist"
when absent, no write), unmarshals, sets `Owner`, re-marshals and writes
back under the same key. -/
def transferProperty (l : Ledger) (args : List String) : Response × Ledger :=
  match args with
  | a0 :: a1 :: _ =>
    let propertyNum := a0
    let newOwner := (toLowerStr a1)
    match getState l propertyNum with
    | none => (.error "Property does not exist", l)
    | some bytes =>
      let propertyToTransfer := unmarshalProperty bytes
      let updated := { propertyToTransfer with Owner := newOwner }
      (.success none, putState l propertyNum (.prop updated))
  | _ => (.error "Incorrect number of arguments. Expecting 2", l)

/-- `Invoke(stub)`: the dispatch router.  Recognizes exactly the five
literals of the source's if-chain — note `"initConditon"` (missing `i`)
and `"CreateContract"` (capital C) — and returns the FIXED message
`"Received unknown function invocation"` for every other name (the
unrecognized name goes only to `fmt.Println`, not into the response). -/
def Invoke (l : Ledger) (function : String) (args : List String) : Response × Ledger :=
  if function = "initProperty" then initProperty l args
  else if function = "initConditon" then initConditon l args
  else if function = "CreateContract" then CreateContract l args
  else if function = "transferProperty" then transferProperty l args
  else if function = "readValue" then readValue l args
  else (.error "Received unknown function invocation", l)

/-! ## Helper lemmas -/

/-- Go's `len(s) <= 0` test holds exactly on the empty string. -/
lemma length_le_zero_iff (s : String) : s.length ≤ 0 ↔ s = "" := by
  obtain ⟨data⟩ := s
  simp [String.length, Nat.le_zero, List.length_eq_zero, String.ext_iff]

/-- Reading back the key just written returns the written document. -/
lemma getState_putState_self (l : Ledger) (k : String) (v : Doc) :
    getState (putState l k v) k = some v := by
  induction l with
  | nil => simp [putState, getState]
  | cons hd tl ih =>
    obtain ⟨k2, v2⟩ := hd
    by_cases h : k2 = k
    · subst h
      simp [putState, getState]
    · simp [putState, getState, h, ih]

/-- With all four arguments non-empty, `initProperty` succeeds and stores
the lower-cased property document under the lower-cased first argument. -/
lemma initProperty_success (l : Ledger) (a0 a1 a2 a3 : String)
    (h0 : a0 ≠ "") (h1 : a1 ≠ "") (h2 : a2 ≠ "") (h3 : a3 ≠ "") :
    initProperty l [a0, a1, a2, a3] =
      (.success none,
       putState l (toLowerStr a0)
         (.prop ⟨"property", toLowerStr a0, toLowerStr a1, toLowerStr a2, toLowerStr a3⟩)) := by
  have e0 : ¬ a0.length ≤ 0 := fun h => h0 ((length_le_zero_iff a0).mp h)
  have e1 : ¬ a1.length ≤ 0 := fun h => h1 ((length_le_zero_iff a1).mp h)
  have e2 : ¬ a2.length ≤ 0 := fun h => h2 ((length_le_zero_iff a2).mp h)
  have e3 : ¬ a3.length ≤ 0 := fun h => h3 ((length_le_zero_iff a3).mp h)
  simp only [initProperty]
  rw [if_neg e0, if_neg e1, if_neg e2, if_neg e3]

/-- With all five arguments non-empty and the fifth parsed by `Atoi`,
`initConditon` succeeds and stores the condition document under the
lower-cased first argument. -/
lemma initConditon_success (l : Ledger) (b0 b1 b2 b3 b4 : String) (d : Int)
    (h0 : b0 ≠ "") (h1 : b1 ≠ "") (h2 : b2 ≠ "") (h3 : b3 ≠ "")
    (hd : atoi? b4 = some d) :
    initConditon l [b0, b1, b2, b3, b4] =
      (.success none,
       putState l (toLowerStr b0)
         (.cond ⟨"condition", toLowerStr b0, toLowerStr b1, toLowerStr b2, toLowerStr b3, d⟩)) := by
  have h4 : b4 ≠ "" := by
    intro h
    rw [h] at hd
    simp [atoi?] at hd
  have e0 : ¬ b0.length ≤ 0 := fun h => h0 ((length_le_zero_iff b0).mp h)
  have e1 : ¬ b1.length ≤ 0 := fun h => h1 ((length_le_zero_iff b1).mp h)
  have e2 : ¬ b2.length ≤ 0 := fun h => h2 ((length_le_zero_iff b2).mp h)
  have e3 : ¬ b3.length ≤ 0 := fun h => h3 ((length_le_zero_iff b3).mp h)
  have e4 : ¬ b4.length ≤ 0 := fun h => h4 ((length_le_zero_iff b4).mp h)
  simp only [initConditon]
  rw [if_neg e0, if_neg e1, if_neg e2, if_neg e3, if_neg e4, hd]

/-- With both arguments non-empty, `CreateContract` succeeds and stores
the contract document under the lower-cased first argument. -/
lemma CreateContract_success (l : Ledger) (c0 c1 : String)
    (h0 : c0 ≠ "") (h1 : c1 ≠ "") :
    CreateContract l [c0, c1] =
      (.success none,
       putState l (toLowerStr c0) (.contr ⟨"contract", toLowerStr c0, toLowerStr c1⟩)) := by
  have e0 : ¬ c0.length ≤ 0 := fun h => h0 ((length_le_zero_iff c0).mp h)
  have e1 : ¬ c1.length ≤ 0 := fun h => h1 ((length_le_zero_iff c1).mp h)
  simp only [CreateContract]
  rw [if_neg e0, if_neg e1]

/-- `initProperty` on any argument list whose length is not 4 returns its
arity error and leaves the ledger untouched. -/
lemma initProperty_arity (l : Ledger) (args : List String) (h : args.length ≠ 4) :
    initProperty l args = (.error "Incorrect number of arguments. Expecting 4", l) := by
  rcases args with _ | ⟨b0, _ | ⟨b1, _ | ⟨b2, _ | ⟨b3, _ | ⟨b4, rest⟩⟩⟩⟩⟩ <;>
    simp_all [initProperty]

/-- `initConditon` on any argument list whose length is not 5 returns its
arity error and leaves the ledger untouched. -/
lemma initConditon_arity (l : Ledger) (args : List String) (h : args.length ≠ 5) :
    initConditon l args = (.error "Incorrect number of arguments. Expecting 5", l) := by
  rcases args with _ | ⟨b0, _ | ⟨b1, _ | ⟨b2, _ | ⟨b3, _ | ⟨b4, _ | ⟨b5, rest⟩⟩⟩⟩⟩⟩ <;>
    simp_all [initConditon]

/-- `CreateContract` on any argument list whose length is not 2 returns
its arity error and leaves the ledger untouched. -/
lemma CreateContract_arity (l : Ledger) (args : List String) (h : args.length ≠ 2) :
    CreateContract l args = (.error "Incorrect number of arguments. Expecting 2", l) := by
  rcases args with _ | ⟨b0, _ | ⟨b1, _ | ⟨b2, rest⟩⟩⟩ <;> simp_all [CreateContract]

/-- `readValue` on any argument list whose length is not 1 returns its
arity error and leaves the ledger untouched. -/
lemma readValue_arity (l : Ledger) (args : List String) (h : args.length ≠ 1) :
    readValue l args = (.error "Incorrect number of arguments. Expecting number of the value to query", l) := by
  rcases args with _ | ⟨b0, _ | ⟨b1, rest⟩⟩ <;> simp_all [readValue]

/-- `transferProperty` on fewer than 2 arguments returns its arity error
and leaves the ledger untouched. -/
lemma transferProperty_arity (l : Ledger) (args : List String) (h : args.length < 2) :
    transferProperty l args = (.error "Incorrect number of arguments. Expecting 2", l) := by
  rcases args with _ | ⟨b0, _ | ⟨b1, rest⟩⟩
  · simp [transferProperty]
  · simp [transferProperty]
  · simp only [List.length_cons] at h
    omega

/-- An empty string among the four arguments makes `initProperty` return
a non-emptiness error and leave the ledger untouched. -/
lemma initProperty_empty (l : Ledger) (b0 b1 b2 b3 : String)
    (h : b0 = "" ∨ b1 = "" ∨ b2 = "" ∨ b3 = "") :
    ∃ m, initProperty l [b0, b1, b2, b3] = (.error m, l) := by
  simp only [initProperty]
  rcases h with h | h | h | h <;> subst h <;> split_ifs <;>
    first
    | exact ⟨_, rfl⟩
    | simp_all [length_le_zero_iff]

/-- An empty string among the five arguments makes `initConditon` return
an error (a non-emptiness error, or for the fifth argument possibly the
`Atoi` error) and leave the ledger untouched. -/
lemma initConditon_empty (l : Ledger) (b0 b1 b2 b3 b4 : String)
    (h : b0 = "" ∨ b1 = "" ∨ b2 = "" ∨ b3 = "" ∨ b4 = "") :
    ∃ m, initConditon l [b0, b1, b2, b3, b4] = (.error m, l) := by
  simp only [initConditon]
  rcases h with h | h | h | h | h <;> subst h <;> split_ifs <;>
    first
    | exact ⟨_, rfl⟩
    | simp_all [length_le_zero_iff]

/-- An empty string among the two arguments makes `CreateContract` return
a non-emptiness error and leave the ledger untouched. -/
lemma CreateContract_empty (l : Ledger) (b0 b1 : String)
    (h : b0 = "" ∨ b1 = "") :
    ∃ m, CreateContract l [b0, b1] = (.error m, l) := by
  simp only [CreateContract]
  rcases h with h | h <;> subst h <;> split_ifs <;>
    first
    | exact ⟨_, rfl⟩
    | simp_all [length_le_zero_iff]

/-- With at least two arguments and a document stored at the verbatim key
`args[0]`, `transferProperty` rewrites that key with the unmarshalled
record whose `Owner` is replaced by the lower-cased `args[1]`; any extra
arguments are ignored. -/
lemma transferProperty_found (l : Ledger) (a0 a1 : String) (rest : List String) (d : Doc)
    (h : getState l a0 = some d) :
    transferProperty l (a0 :: a1 :: rest) =
      (.success none,
       putState l a0 (.prop { unmarshalProperty d with Owner := toLowerStr a1 })) := by
  simp [transferProperty, h]

/-- With at least two arguments and nothing stored at the verbatim key
`args[0]`, `transferProperty` reports the missing property and leaves the
ledger untouched. -/
lemma transferProperty_notfound (l : Ledger) (a0 a1 : String) (rest : List String)
    (h : getState l a0 = none) :
    transferProperty l (a0 :: a1 :: rest) = (.error "Property does not exist", l) := by
  simp [transferProperty, h]

/-- Wrong arity or an empty argument makes `initProperty` fail without
touching the ledger. -/
lemma initProperty_invalid (l : Ledger) (args : List String)
    (h : args.length ≠ 4 ∨ "" ∈ args) :
    ∃ m, initProperty l args = (.error m, l) := by
  rcases args with _ | ⟨b0, _ | ⟨b1, _ | ⟨b2, _ | ⟨b3, _ | ⟨b4, rest⟩⟩⟩⟩⟩
  · exact ⟨_, initProperty_arity l _ (by simp only [List.length_nil]; omega)⟩
  · exact ⟨_, initProperty_arity l _ (by simp only [List.length_cons, List.length_nil]; omega)⟩
  · exact ⟨_, initProperty_arity l _ (by simp only [List.length_cons, List.length_nil]; omega)⟩
  · exact ⟨_, initProperty_arity l _ (by simp only [List.length_cons, List.length_nil]; omega)⟩
  · rcases h with h | h
    · simp at h
    · simp only [List.mem_cons, List.not_mem_nil, or_false] at h
      refine initProperty_empty l b0 b1 b2 b3 ?_
      rcases h with h | h | h | h
      · exact Or.inl h.symm
      · exact Or.inr (Or.inl h.symm)
      · exact Or.inr (Or.inr (Or.inl h.symm))
      · exact Or.inr (Or.inr (Or.inr h.symm))
  · exact ⟨_, initProperty_arity l _ (by simp only [List.length_cons, List.length_nil]; omega)⟩

/-- Wrong arity or an empty argument makes `initConditon` fail without
touching the ledger. -/
lemma initConditon_invalid (l : Ledger) (args : List String)
    (h : args.length ≠ 5 ∨ "" ∈ args) :
    ∃ m, initConditon l args = (.error m, l) := by
  rcases args with _ | ⟨b0, _ | ⟨b1, _ | ⟨b2, _ | ⟨b3, _ | ⟨b4, _ | ⟨b5, rest⟩⟩⟩⟩⟩⟩
  · exact ⟨_, initConditon_arity l _ (by simp only [List.length_nil]; omega)⟩
  · exact ⟨_, initConditon_arity l _ (by simp only [List.length_cons, List.length_nil]; omega)⟩
  · exact ⟨_, initConditon_arity l _ (by simp only [List.length_cons, List.length_nil]; omega)⟩
  · exact ⟨_, initConditon_arity l _ (by simp only [List.length_cons, List.length_nil]; omega)⟩
  · exact ⟨_, initConditon_arity l _ (by simp only [List.length_cons, List.length_nil]; omega)⟩
  · rcases h with h | h
    · simp at h
    · simp only [List.mem_cons, List.not_mem_nil, or_false] at h
      refine initConditon_empty l b0 b1 b2 b3 b4 ?_
      rcases h with h | h | h | h | h
      · exact Or.inl h.symm
      · exact Or.inr (Or.inl h.symm)
      · exact Or.inr (Or.inr (Or.inl h.symm))
      · exact Or.inr (Or.inr (Or.inr (Or.inl h.symm)))
      · exact Or.inr (Or.inr (Or.inr (Or.inr h.symm)))
  · exact ⟨_, initConditon_arity l _ (by simp only [List.length_cons, List.length_nil]; omega)⟩

/-- Wrong arity or an empty argument makes `CreateContract` fail without
touching the ledger. -/
lemma CreateContract_invalid (l : Ledger) (args : List String)
    (h : args.length ≠ 2 ∨ "" ∈ args) :
    ∃ m, CreateContract l args = (.error m, l) := by
  rcases args with _ | ⟨b0, _ | ⟨b1, _ | ⟨b2, rest⟩⟩⟩
  · exact ⟨_, CreateContract_arity l _ (by simp only [List.length_nil]; omega)⟩
  · exact ⟨_, CreateContract_arity l _ (by simp only [List.length_cons, List.length_nil]; omega)⟩
  · rcases h with h | h
    · simp at h
    · simp only [List.mem_cons, List.not_mem_nil, or_false] at h
      refine CreateContract_empty l b0 b1 ?_
      rcases h with h | h
      · exact Or.inl h.symm
      · exact Or.inr h.symm
  · exact ⟨_, CreateContract_arity l _ (by simp only [List.length_cons, List.length_nil]; omega)⟩

/-! ## Claim theorems -/

/-- C1: for every valid invocation of `initProperty` with four non-empty
string arguments, a subsequent `readValue` of the lower-cased propertyNum
succeeds and returns a record whose `property_num`, `name`, `address` and
`owner` fields equal the lower-cased inputs and whose `docType` field is
the literal `"property"`. -/
theorem C1_create_then_read_roundtrip (l : Ledger) (a0 a1 a2 a3 : String)
    (h0 : a0 ≠ "") (h1 : a1 ≠ "") (h2 : a2 ≠ "") (h3 : a3 ≠ "") :
    (initProperty l [a0, a1, a2, a3]).1 = .success none ∧
    (readValue (initProperty l [a0, a1, a2, a3]).2 [toLowerStr a0]).1 =
      .success (some (.prop
        ⟨"property", toLowerStr a0, toLowerStr a1, toLowerStr a2, toLowerStr a3⟩)) := by
  rw [initProperty_success l a0 a1 a2 a3 h0 h1 h2 h3]
  exact ⟨rfl, by simp [readValue, getState_putState_self]⟩

/-- C1 witness: the spec's concrete scenario, up to letter case. -/
theorem C1_witness :
    (initProperty [] ["P1", "Islab", "Seoul", "Alice"]).1 = .success none ∧
    (readValue (initProperty [] ["P1", "Islab", "Seoul", "Alice"]).2 [toLowerStr "P1"]).1 =
      .success (some (.prop
        ⟨"property", toLowerStr "P1", toLowerStr "Islab", toLowerStr "Seoul", toLowerStr "Alice"⟩)) :=
  C1_create_then_read_roundtrip [] "P1" "Islab" "Seoul" "Alice"
    (by decide) (by decide) (by decide) (by decide)

/-- C2 counterexample: `transferProperty` with THREE arguments — a wrong
argument count for an operation whose required arity is 2 — does not
return a validation error: it succeeds and mutates the ledger. -/
theorem C2_counterexample :
    (transferProperty [("p1", .prop ⟨"property", "p1", "islab", "seoul", "alice"⟩)]
        ["p1", "bob", "extra"]).1 = .success none ∧
    (transferProperty [("p1", .prop ⟨"property", "p1", "islab", "seoul", "alice"⟩)]
        ["p1", "bob", "extra"]).2
      ≠ [("p1", .prop ⟨"property", "p1", "islab", "seoul", "alice"⟩)] := by decide

/-- C2 amended: for the three create operations, a wrong argument count or
any empty argument yields a validation error with the ledger byte-for-byte
unchanged; `transferProperty` guarantees this only for fewer than two
arguments (its count check is `< 2`, and it never inspects emptiness), as
the counterexample shows. -/
theorem C2_amended_validation_before_write (l : Ledger) (args : List String) :
    ((args.length ≠ 4 ∨ "" ∈ args) → ∃ m, initProperty l args = (.error m, l)) ∧
    ((args.length ≠ 5 ∨ "" ∈ args) → ∃ m, initConditon l args = (.error m, l)) ∧
    ((args.length ≠ 2 ∨ "" ∈ args) → ∃ m, CreateContract l args = (.error m, l)) ∧
    (args.length < 2 → ∃ m, transferProperty l args = (.error m, l)) :=
  ⟨initProperty_invalid l args, initConditon_invalid l args,
   CreateContract_invalid l args, fun h => ⟨_, transferProperty_arity l args h⟩⟩

/-- C2 witness: concrete invalid calls fail and leave the empty ledger
empty. -/
theorem C2_witness :
    (∃ m, initProperty [] ["p1", ""] = (.error m, [])) ∧
    (∃ m, initConditon [] ["p1", ""] = (.error m, [])) ∧
    (∃ m, CreateContract [] ["p1", ""] = (.error m, [])) ∧
    (∃ m, transferProperty [] ["p1"] = (.error m, [])) :=
  ⟨(C2_amended_validation_before_write [] ["p1", ""]).1 (by decide),
   (C2_amended_validation_before_write [] ["p1", ""]).2.1 (by decide),
   (C2_amended_validation_before_write [] ["p1", ""]).2.2.1 (by decide),
   (C2_amended_validation_before_write [] ["p1"]).2.2.2 (by decide)⟩

/-- C3: when a Property record is stored at key `propertyNum` (used
verbatim), `transferProperty` succeeds and writes back, under the same
key, the same record with only `Owner` replaced by the lower-cased new
owner; when the key is absent it reports "Property does not exist" and
leaves the ledger untouched. -/
theorem C3_transfer_read_modify_write (l : Ledger) (k nw : String) :
    (∀ p : property, getState l k = some (.prop p) →
      transferProperty l [k, nw] =
        (.success none,
         putState l k (.prop ⟨p.ObjectType, p.Property_num, p.Name, p.Address, toLowerStr nw⟩))) ∧
    (getState l k = none →
      transferProperty l [k, nw] = (.error "Property does not exist", l)) := by
  constructor
  · intro p hp
    simpa [unmarshalProperty] using transferProperty_found l k nw [] (.prop p) hp
  · intro hn
    exact transferProperty_notfound l k nw [] hn

/-- C3 witness: both branches at concrete inputs. -/
theorem C3_witness :
    transferProperty [("p1", .prop ⟨"property", "p1", "islab", "seoul", "alice"⟩)] ["p1", "Bob"] =
      (.success none,
       putState [("p1", .prop ⟨"property", "p1", "islab", "seoul", "alice"⟩)] "p1"
         (.prop ⟨"property", "p1", "islab", "seoul", toLowerStr "Bob"⟩)) ∧
    transferProperty [] ["p2", "bob"] = (.error "Property does not exist", []) :=
  ⟨(C3_transfer_read_modify_write [("p1", .prop ⟨"property", "p1", "islab", "seoul", "alice"⟩)]
      "p1" "Bob").1 ⟨"property", "p1", "islab", "seoul", "alice"⟩ (by decide),
   (C3_transfer_read_modify_write [] "p2" "bob").2 (by decide)⟩

/-- C4 counterexample: re-creating `"p1"` while a record already exists at
that key does NOT fail with an "already exists" error — it succeeds and
silently overwrites the stored record (owner "alice" becomes "bob"). -/
theorem C4_counterexample :
    getState ((initProperty [] ["p1", "n", "a", "alice"]).2) "p1"
      = some (.prop ⟨"property", "p1", "n", "a", "alice"⟩) ∧
    (initProperty ((initProperty [] ["p1", "n", "a", "alice"]).2) ["p1", "n", "a", "bob"]).1
      = .success none ∧
    getState (initProperty ((initProperty [] ["p1", "n", "a", "alice"]).2)
        ["p1", "n", "a", "bob"]).2 "p1"
      = some (.prop ⟨"property", "p1", "n", "a", "bob"⟩) := by decide

/-- C4 amended: NO create operation checks for an existing record — with
valid arguments each succeeds against EVERY ledger, including one that
already holds a record at the target key, and `putState` replaces that
binding (last write wins); an "already exists" error is never returned. -/
theorem C4_amended_creates_overwrite (l : Ledger)
    (a0 a1 a2 a3 b0 b1 b2 b3 b4 c0 c1 : String) (d : Int)
    (ha0 : a0 ≠ "") (ha1 : a1 ≠ "") (ha2 : a2 ≠ "") (ha3 : a3 ≠ "")
    (hb0 : b0 ≠ "") (hb1 : b1 ≠ "") (hb2 : b2 ≠ "") (hb3 : b3 ≠ "")
    (hbd : atoi? b4 = some d) (hc0 : c0 ≠ "") (hc1 : c1 ≠ "") :
    initProperty l [a0, a1, a2, a3] =
      (.success none, putState l (toLowerStr a0)
        (.prop ⟨"property", toLowerStr a0, toLowerStr a1, toLowerStr a2, toLowerStr a3⟩)) ∧
    initConditon l [b0, b1, b2, b3, b4] =
      (.success none, putState l (toLowerStr b0)
        (.cond ⟨"condition", toLowerStr b0, toLowerStr b1, toLowerStr b2, toLowerStr b3, d⟩)) ∧
    CreateContract l [c0, c1] =
      (.success none, putState l (toLowerStr c0)
        (.contr ⟨"contract", toLowerStr c0, toLowerStr c1⟩)) :=
  ⟨initProperty_success l a0 a1 a2 a3 ha0 ha1 ha2 ha3,
   initConditon_success l b0 b1 b2 b3 b4 d hb0 hb1 hb2 hb3 hbd,
   CreateContract_success l c0 c1 hc0 hc1⟩

/-- C4 witness: all three creates succeed on a ledger that already binds
their target keys. -/
theorem C4_witness :
    initProperty [("p1", .contr ⟨"contract", "p1", "c1"⟩)] ["p1", "n", "a", "alice"] =
      (.success none, putState [("p1", .contr ⟨"contract", "p1", "c1"⟩)] (toLowerStr "p1")
        (.prop ⟨"property", toLowerStr "p1", toLowerStr "n", toLowerStr "a", toLowerStr "alice"⟩)) ∧
    initConditon [("p1", .contr ⟨"contract", "p1", "c1"⟩)] ["C1", "p1", "s", "b", "77"] =
      (.success none, putState [("p1", .contr ⟨"contract", "p1", "c1"⟩)] (toLowerStr "C1")
        (.cond ⟨"condition", toLowerStr "C1", toLowerStr "p1", toLowerStr "s", toLowerStr "b", 77⟩)) ∧
    CreateContract [("p1", .contr ⟨"contract", "p1", "c1"⟩)] ["k1", "c1"] =
      (.success none, putState [("p1", .contr ⟨"contract", "p1", "c1"⟩)] (toLowerStr "k1")
        (.contr ⟨"contract", toLowerStr "k1", toLowerStr "c1"⟩)) :=
  C4_amended_creates_overwrite [("p1", .contr ⟨"contract", "p1", "c1"⟩)]
    "p1" "n" "a" "alice" "C1" "p1" "s" "b" "77" "k1" "c1" 77
    (by decide) (by decide) (by decide) (by decide) (by decide) (by decide)
    (by decide) (by decide) (by decide) (by decide) (by decide)

/-- C5 counterexample: `transferProperty` invoked with THREE arguments
does not fail with the arity error — it succeeds (its check is
`len(args) < 2`, not an exact-equality check). -/
theorem C5_counterexample :
    (transferProperty [("p1", .prop ⟨"property", "p1", "islab", "seoul", "alice"⟩)]
        ["p1", "carol", "surplus"]).1 = .success none := by decide

/-- C5 amended: `initProperty`, `initConditon`, `CreateContract` and
`readValue` check exact arity and reject any other count; `transferProperty`
only rejects FEWER than two arguments and accepts two or more, never
returning its arity message once two arguments are present. -/
theorem C5_amended_arity_checks (l : Ledger) (args : List String) :
    (args.length ≠ 4 →
      initProperty l args = (.error "Incorrect number of arguments. Expecting 4", l)) ∧
    (args.length ≠ 5 →
      initConditon l args = (.error "Incorrect number of arguments. Expecting 5", l)) ∧
    (args.length ≠ 2 →
      CreateContract l args = (.error "Incorrect number of arguments. Expecting 2", l)) ∧
    (args.length ≠ 1 →
      readValue l args =
        (.error "Incorrect number of arguments. Expecting number of the value to query", l)) ∧
    (args.length < 2 →
      transferProperty l args = (.error "Incorrect number of arguments. Expecting 2", l)) ∧
    (2 ≤ args.length →
      (transferProperty l args).1 ≠ .error "Incorrect number of arguments. Expecting 2") := by
  refine ⟨initProperty_arity l args, initConditon_arity l args, CreateContract_arity l args,
    readValue_arity l args, transferProperty_arity l args, ?_⟩
  intro h2
  rcases args with _ | ⟨b0, _ | ⟨b1, rest⟩⟩
  · simp at h2
  · simp at h2
  · simp only [transferProperty]
    cases hg : getState l b0 <;> simp

/-- C5 witness: each exact-arity rejection at a concrete wrong count, and
`transferProperty` accepting two arguments. -/
theorem C5_witness :
    initProperty [] ["x"] = (.error "Incorrect number of arguments. Expecting 4", []) ∧
    initConditon [] ["x"] = (.error "Incorrect number of arguments. Expecting 5", []) ∧
    CreateContract [] ["x"] = (.error "Incorrect number of arguments. Expecting 2", []) ∧
    readValue [] [] =
      (.error "Incorrect number of arguments. Expecting number of the value to query", []) ∧
    transferProperty [] ["x"] = (.error "Incorrect number of arguments. Expecting 2", []) ∧
    (transferProperty [] ["x", "y"]).1 ≠ .error "Incorrect number of arguments. Expecting 2" :=
  ⟨(C5_amended_arity_checks [] ["x"]).1 (by decide),
   (C5_amended_arity_checks [] ["x"]).2.1 (by decide),
   (C5_amended_arity_checks [] ["x"]).2.2.1 (by decide),
   (C5_amended_arity_checks [] []).2.2.2.1 (by decide),
   (C5_amended_arity_checks [] ["x"]).2.2.2.2.1 (by decide),
   (C5_amended_arity_checks [] ["x", "y"]).2.2.2.2.2 (by decide)⟩

/-- C6 counterexample: the unknown-function error message is the FIXED
string "Received unknown function invocation" — two different unknown
names get the identical message, so the message does not name the
unrecognized function (the name goes only to `fmt.Println`). -/
theorem C6_counterexample :
    (Invoke [] "deleteEverything" []).1 = .error "Received unknown function invocation" ∧
    (Invoke [] "someOtherMissingName" []).1 = (Invoke [] "deleteEverything" []).1 ∧
    (Invoke [] "deleteEverything" []).2 = ([] : Ledger) := by decide

/-- C6 amended: every function name outside the router's fixed mapping
yields the fixed error message "Received unknown function invocation"
(which does not name the function), with no ledger mutation and never a
crash or a no-op success. -/
theorem C6_amended_unknown_function (l : Ledger) (f : String) (args : List String)
    (h : f ∉ ["initProperty", "initConditon", "CreateContract",
              "transferProperty", "readValue"]) :
    Invoke l f args = (.error "Received unknown function invocation", l) := by
  simp only [List.mem_cons, List.not_mem_nil, or_false, not_or] at h
  obtain ⟨h1, h2, h3, h4, h5⟩ := h
  simp [Invoke, h1, h2, h3, h4, h5]

/-- C6 witness: the spec's dispatch scenario. -/
theorem C6_witness :
    Invoke [("p1", .prop ⟨"property", "p1", "n", "a", "alice"⟩)] "deleteEverything" [] =
      (.error "Received unknown function invocation",
       [("p1", .prop ⟨"property", "p1", "n", "a", "alice"⟩)]) :=
  C6_amended_unknown_function [("p1", .prop ⟨"property", "p1", "n", "a", "alice"⟩)]
    "deleteEverything" [] (by decide)

/-- C7 counterexample: the router does NOT recognize the spec's names
`"initCondition"` and `"createContract"` — both fall through to the
unknown-function error even with valid arguments (the source literals are
`"initConditon"` and `"CreateContract"`). -/
theorem C7_counterexample :
    (Invoke [] "initCondition" ["c1", "p1", "alice", "bob", "5000000"]).1
      = .error "Received unknown function invocation" ∧
    (Invoke [] "createContract" ["k1", "c1"]).1
      = .error "Received unknown function invocation" := by decide

/-- C7 amended: the router recognizes exactly the five literals
`initProperty`, `initConditon` (source's spelling), `CreateContract`
(capital C), `transferProperty`, `readValue`, routing each to its
operation; `"initConditon"` with five valid arguments succeeds, and
`"CreateContract"` with two valid arguments succeeds. -/
theorem C7_amended_dispatch (l : Ledger) (args : List String) (f : String) :
    Invoke l "initProperty" args = initProperty l args ∧
    Invoke l "initConditon" args = initConditon l args ∧
    Invoke l "CreateContract" args = CreateContract l args ∧
    Invoke l "transferProperty" args = transferProperty l args ∧
    Invoke l "readValue" args = readValue l args ∧
    (f ∉ ["initProperty", "initConditon", "CreateContract",
          "transferProperty", "readValue"] →
      Invoke l f args = (.error "Received unknown function invocation", l)) ∧
    (Invoke l "initConditon" ["c1", "p1", "alice", "bob", "5000000"]).1 = .success none ∧
    (Invoke l "CreateContract" ["k1", "c1"]).1 = .success none := by
  refine ⟨by simp [Invoke], by simp [Invoke], by simp [Invoke], by simp [Invoke],
    by simp [Invoke], ?_, rfl, rfl⟩
  intro h
  simp only [List.mem_cons, List.not_mem_nil, or_false, not_or] at h
  obtain ⟨h1, h2, h3, h4, h5⟩ := h
  simp [Invoke, h1, h2, h3, h4, h5]

/-- C7 witness: the misspelling matters at a concrete call, and the
source spelling succeeds. -/
theorem C7_witness :
    Invoke [] "initCondition" [] = (.error "Received unknown function invocation", []) ∧
    (Invoke [] "initConditon" ["c1", "p1", "alice", "bob", "5000000"]).1 = .success none ∧
    (Invoke [] "CreateContract" ["k1", "c1"]).1 = .success none :=
  ⟨(C7_amended_dispatch [] [] "initCondition").2.2.2.2.2.1 (by decide),
   (C7_amended_dispatch [] [] "x").2.2.2.2.2.2.1,
   (C7_amended_dispatch [] [] "x").2.2.2.2.2.2.2⟩

/-- C8 counterexample: a property created as "p1" is NOT reached by
`transferProperty` with propertyNum "P1" (differing only in case): the
key argument is used verbatim, so the call fails with "Property does not
exist" and the ledger is unchanged. -/
theorem C8_counterexample :
    (initProperty [] ["p1", "n", "a", "alice"]).2
      = [("p1", .prop ⟨"property", "p1", "n", "a", "alice"⟩)] ∧
    transferProperty [("p1", .prop ⟨"property", "p1", "n", "a", "alice"⟩)] ["P1", "bob"]
      = (.error "Property does not exist",
         [("p1", .prop ⟨"property", "p1", "n", "a", "alice"⟩)]) := by decide

/-- C8 amended: the create operations lower-case all their arguments, but
`transferProperty` uses its propertyNum argument VERBATIM (only newOwner
is lower-cased) — so a transfer resolves a record created via
`initProperty` exactly when its key argument equals the stored lower-cased
key, and any key that does not match a stored binding (in particular one
differing in letter case) fails with "Property does not exist". -/
theorem C8_amended_case_sensitivity (l : Ledger) (a0 a1 a2 a3 k nw : String)
    (h0 : a0 ≠ "") (h1 : a1 ≠ "") (h2 : a2 ≠ "") (h3 : a3 ≠ "") :
    (transferProperty (initProperty l [a0, a1, a2, a3]).2 [toLowerStr a0, nw]).1
      = .success none ∧
    (getState (initProperty l [a0, a1, a2, a3]).2 k = none →
      transferProperty (initProperty l [a0, a1, a2, a3]).2 [k, nw]
        = (.error "Property does not exist", (initProperty l [a0, a1, a2, a3]).2)) := by
  rw [initProperty_success l a0 a1 a2 a3 h0 h1 h2 h3]
  constructor
  · rw [transferProperty_found _ _ _ [] _ (getState_putState_self l (toLowerStr a0) _)]
  · intro hk
    exact transferProperty_notfound _ k nw [] hk

/-- C8 witness: exact-key transfer succeeds; the case-differing key "P1"
is absent from the post-create ledger, so that transfer fails. -/
theorem C8_witness :
    (transferProperty (initProperty [] ["p1", "n", "a", "alice"]).2
        [toLowerStr "p1", "bob"]).1 = .success none ∧
    transferProperty (initProperty [] ["p1", "n", "a", "alice"]).2 ["P1", "bob"]
      = (.error "Property does not exist", (initProperty [] ["p1", "n", "a", "alice"]).2) :=
  ⟨(C8_amended_case_sensitivity [] "p1" "n" "a" "alice" "P1" "bob"
      (by decide) (by decide) (by decide) (by decide)).1,
   (C8_amended_case_sensitivity [] "p1" "n" "a" "alice" "P1" "bob"
      (by decide) (by decide) (by decide) (by decide)).2 (by decide)⟩

/-- C9 counterexample: a NEGATIVE deposit string "-5" is accepted by
`initConditon` (Go's `strconv.Atoi` parses a leading sign): the call
succeeds and writes the condition with deposit -5, instead of the
ValidationError the claim requires for negative deposits. -/
theorem C9_counterexample :
    (initConditon [] ["c1", "p1", "a", "b", "-5"]).1 = .success none ∧
    (initConditon [] ["c1", "p1", "a", "b", "-5"]).2
      = [("c1", .cond ⟨"condition", "c1", "p1", "a", "b", -5⟩)] := by decide

/-- C9 amended: a fifth argument that `Atoi` cannot parse yields the
NotNumeric validation error with no ledger write; a fifth argument that
parses to ANY integer — negative included — is accepted, and the parsed
value is stored as the deposit (no non-negativity check exists). -/
theorem C9_amended_deposit_parsing (l : Ledger) (b0 b1 b2 b3 b4 : String)
    (h0 : b0 ≠ "") (h1 : b1 ≠ "") (h2 : b2 ≠ "") (h3 : b3 ≠ "") (h4 : b4 ≠ "") :
    (atoi? b4 = none →
      initConditon l [b0, b1, b2, b3, b4]
        = (.error "5th argument must be a numeric string", l)) ∧
    (∀ d : Int, atoi? b4 = some d →
      initConditon l [b0, b1, b2, b3, b4] =
        (.success none, putState l (toLowerStr b0)
          (.cond ⟨"condition", toLowerStr b0, toLowerStr b1, toLowerStr b2, toLowerStr b3, d⟩))) := by
  constructor
  · intro hn
    have e0 : ¬ b0.length ≤ 0 := fun h => h0 ((length_le_zero_iff b0).mp h)
    have e1 : ¬ b1.length ≤ 0 := fun h => h1 ((length_le_zero_iff b1).mp h)
    have e2 : ¬ b2.length ≤ 0 := fun h => h2 ((length_le_zero_iff b2).mp h)
    have e3 : ¬ b3.length ≤ 0 := fun h => h3 ((length_le_zero_iff b3).mp h)
    have e4 : ¬ b4.length ≤ 0 := fun h => h4 ((length_le_zero_iff b4).mp h)
    simp only [initConditon]
    rw [if_neg e0, if_neg e1, if_neg e2, if_neg e3, if_neg e4, hn]
  · intro d hd
    exact initConditon_success l b0 b1 b2 b3 b4 d h0 h1 h2 h3 hd

/-- C9 witness: the spec's NotNumeric scenario, plus acceptance of a
negative deposit. -/
theorem C9_witness :
    initConditon [] ["c1", "p1", "alice", "bob", "notanumber"]
      = (.error "5th argument must be a numeric string", []) ∧
    initConditon [] ["c1", "p1", "alice", "bob", "-5"] =
      (.success none, putState [] (toLowerStr "c1")
        (.cond ⟨"condition", toLowerStr "c1", toLowerStr "p1",
                toLowerStr "alice", toLowerStr "bob", -5⟩)) :=
  ⟨(C9_amended_deposit_parsing [] "c1" "p1" "alice" "bob" "notanumber"
      (by decide) (by decide) (by decide) (by decide) (by decide)).1 (by decide),
   (C9_amended_deposit_parsing [] "c1" "p1" "alice" "bob" "-5"
      (by decide) (by decide) (by decide) (by decide) (by decide)).2 (-5) (by decide)⟩

/-- C10: when a Property record is stored at key k, `transferProperty`
with the two arguments [k, ""] succeeds — there is no non-emptiness check
on newOwner — and writes the record back with `Owner` set to the empty
string, every other field unchanged. -/
theorem C10_transfer_accepts_empty_owner (l : Ledger) (k : String) (p : property)
    (h : getState l k = some (.prop p)) :
    transferProperty l [k, ""] =
      (.success none,
       putState l k (.prop ⟨p.ObjectType, p.Property_num, p.Name, p.Address, ""⟩)) := by
  simpa [unmarshalProperty, show toLowerStr "" = "" from rfl]
    using transferProperty_found l k "" [] (.prop p) h

/-- C10 witness: transferring to the empty owner at a concrete record. -/
theorem C10_witness :
    transferProperty [("p1", .prop ⟨"property", "p1", "islab", "seoul", "alice"⟩)] ["p1", ""] =
      (.success none,
       putState [("p1", .prop ⟨"property", "p1", "islab", "seoul", "alice"⟩)] "p1"
         (.prop ⟨"property", "p1", "islab", "seoul", ""⟩)) :=
  C10_transfer_accepts_empty_owner
    [("p1", .prop ⟨"property", "p1", "islab", "seoul", "alice"⟩)] "p1"
    ⟨"property", "p1", "islab", "seoul", "alice"⟩ (by decide)
